import Mathlib

/-!
Verification of the extract–validate–classify–persist–aggregate pipeline of
`Reddit_Pipeline.py`.  The pure parts of the program are embedded as Lean
functions; the sqlite-backed store is a list of rows in rowid (insertion)
order; a Python exception escaping a function is `Except.error`, an
exception caught and turned into `None` is `Option.none`.  Real numbers of
the source (scores, ratios) are modelled as rationals.
-/

attribute [local semireducible] Rat.add Rat.mul Rat.inv Rat.sub

namespace RedditPipeline

/-- The pydantic model `RedditPost`: required `post_id`, `subreddit`,
`title`; defaulted `author`, `score`, `num_comments`, `upvote_ratio`;
optional sentiment fields; `fetched_at` timestamp, modelled as a natural
number instant. -/
structure RedditPost where
  post_id : String
  subreddit : String
  title : String
  author : String := "[deleted]"
  score : Int := 0
  num_comments : Int := 0
  upvote_ratio : Rat := 1/2
  sentiment_score : Option Rat := none
  sentiment_label : Option String := none
  fetched_at : Nat := 0
  deriving DecidableEq

/-- The pydantic field constraints on `RedditPost` (`min_length`, `ge`,
`le`): `subreddit` and `title` non-empty, `score ≥ 0`, `num_comments ≥ 0`,
`upvote_ratio` in `[0, 1]`.  `post_id` carries no constraint in the
source. -/
def pydanticValid (p : RedditPost) : Bool :=
  decide (1 ≤ p.subreddit.length) && decide (1 ≤ p.title.length) &&
  decide (0 ≤ p.score) && decide (0 ≤ p.num_comments) &&
  decide (0 ≤ p.upvote_ratio) && decide (p.upvote_ratio ≤ 1)

/-- The `RedditPost(...)` constructor call as `normalize_post` performs it:
every field is passed explicitly, pydantic validates them and raises on a
violated constraint (modelled as `none`). -/
def validatedPost (pid sub title author : String) (sc nc : Int)
    (ur : Rat) (sent : Rat) (label : String) (now : Nat) :
    Option RedditPost :=
  let p : RedditPost :=
    { post_id := pid, subreddit := sub, title := title, author := author,
      score := sc, num_comments := nc, upvote_ratio := ur,
      sentiment_score := some sent, sentiment_label := some label,
      fetched_at := now }
  if pydanticValid p then some p else none

/-- Whitespace tokenization of a title into words (empty words dropped). -/
def wordsOf (s : String) : List String :=
  let r := s.data.foldr
    (fun c acc =>
      if c = ' ' then
        (([] : List Char), if acc.1 = [] then acc.2 else String.mk acc.1 :: acc.2)
      else (c :: acc.1, acc.2)) ([], [])
  if r.1 = [] then r.2 else String.mk r.1 :: r.2

/-- Modelled from the spec: the polarity score is a call into the TextBlob
library, which is not part of this repository's source.  Per the spec it
is a deterministic word-level polarity lookup averaged across recognized
tokens; unrecognized tokens contribute nothing and a title with no
recognized token scores 0.  The lexicon is a parameter. -/
def textblobPolarity (lex : String → Option Rat) (title : String) : Rat :=
  let rs := (wordsOf title).filterMap lex
  match rs with
  | [] => 0
  | _ => rs.sum / (rs.length : Rat)

/-- The threshold classification in `normalize_post`: `> 0.1` Positive,
`< -0.1` Negative, otherwise Neutral, tested in that order. -/
def classifySentiment (s : Rat) : String :=
  if s > 1/10 then "Positive"
  else if s < -(1/10) then "Negative"
  else "Neutral"

/-- The fields `normalize_post` reads from `raw_post["data"]`.  Each is
optional because the raw mapping may lack the key; a missing key raises
`KeyError` in the source. -/
structure RawData where
  id : Option String := none
  title : Option String := none
  author : Option String := none
  score : Option Int := none
  num_comments : Option Int := none
  upvote_ratio : Option Rat := none
  deriving DecidableEq

/-- One raw item from the feed.  The source reads `raw_post["data"]` first,
and that key may itself be absent. -/
structure RawItem where
  data : Option RawData := none
  deriving DecidableEq

/-- `RedditDataExtractor.normalize_post`: reads `data`, then `title`,
computes the sentiment score and its label from the title, then builds a
`RedditPost` passing every field explicitly — `id`, `author`, `score`,
`num_comments` and `upvote_ratio` are all looked up in the raw mapping, so
a missing key raises `KeyError`.  The surrounding `try/except` turns any
exception (missing key or pydantic validation error) into `None`. -/
def normalize_post (lex : String → Option Rat) (now : Nat)
    (raw : RawItem) (subreddit : String) : Option RedditPost :=
  match raw.data with
  | none => none
  | some d =>
    match d.title with
    | none => none
    | some title =>
      let s := textblobPolarity lex title
      let label := classifySentiment s
      match d.id, d.author, d.score, d.num_comments, d.upvote_ratio with
      | some pid, some author, some sc, some nc, some ur =>
        validatedPost pid subreddit title author sc nc ur s label now
      | _, _, _, _, _ => none

/-- `RedditDataExtractor.fetch_subreddit`: the network request and JSON
parse are a parameter; `none` models the request raising.  On failure the
source prints the error and falls off the end of the function, so the
caller receives Python `None`. -/
def fetch_subreddit (net : String → Option (List RawItem))
    (subreddit : String) : Option (List RawItem) :=
  net subreddit

/-- The extraction loop of `main`: for each subreddit the result of
`fetch_subreddit` is iterated directly.  Iterating Python `None` raises
`TypeError`, which nothing catches, so the whole run aborts; this is
modelled as `Except.error`.  A successful source appends its normalized
posts to the accumulator and the loop continues. -/
def extractAll (net : String → Option (List RawItem))
    (lex : String → Option Rat) (now : Nat) :
    List String → List RedditPost → Except String (List RedditPost)
  | [], acc => .ok acc
  | sub :: subs, acc =>
    match fetch_subreddit net sub with
    | none => .error ("TypeError: NoneType object is not iterable (r/" ++ sub ++ ")")
    | some raws =>
      extractAll net lex now subs
        (acc ++ raws.filterMap (fun r => normalize_post lex now r sub))

/-- The `posts` relation: rows in rowid (insertion) order.  Its columns
coincide with the `RedditPost` fields, so a row is a stored record. -/
abbrev Store := List RedditPost

/-- One `INSERT OR REPLACE` statement: sqlite deletes any row carrying the
same primary key `post_id` and inserts the new row with a fresh rowid,
i.e. at the end of the scan order. -/
def upsertOne (rows : Store) (p : RedditPost) : Store :=
  rows.filter (fun r => r.post_id ≠ p.post_id) ++ [p]

/-- `DatabaseManager.insert_posts` with the per-record `try/except` made
explicit: `fail` says which records raise on write.  A failing record is
skipped and not counted, the loop continues with the remaining records,
and the function returns the final table with the count of successful
writes. -/
def insert_postsTry (fail : RedditPost → Bool) :
    List RedditPost → Store → Nat → Store × Nat
  | [], rows, inserted => (rows, inserted)
  | p :: ps, rows, inserted =>
    if fail p then insert_postsTry fail ps rows inserted
    else insert_postsTry fail ps (upsertOne rows p) (inserted + 1)

/-- `DatabaseManager.insert_posts` in the run where no write raises. -/
def insert_posts (posts : List RedditPost) (rows : Store) : Store :=
  posts.foldl upsertOne rows

/-- Result row of the overall-stats query. -/
structure Overall where
  total_posts : Nat
  avg_score : Option Rat
  avg_comments : Option Rat
  deriving DecidableEq

/-- The overall-stats query of `get_analytics`: `COUNT(*)`, `AVG(score)`,
`AVG(num_comments)`.  SQL `AVG` over zero rows is `NULL`, modelled as
`none`. -/
def queryOverall (rows : Store) : Overall :=
  { total_posts := rows.length,
    avg_score :=
      match rows with
      | [] => none
      | _ => some ((rows.map (fun r => (r.score : Rat))).sum / (rows.length : Rat)),
    avg_comments :=
      match rows with
      | [] => none
      | _ => some ((rows.map (fun r => (r.num_comments : Rat))).sum / (rows.length : Rat)) }

/-- Sqlite ordering on the nullable `sentiment_score` column: `NULL` sorts
before every number. -/
def nullScoreLe (a b : Option Rat) : Prop :=
  match a, b with
  | none, _ => True
  | some _, none => False
  | some x, some y => x ≤ y

instance : DecidableRel nullScoreLe := fun a b => by
  unfold nullScoreLe
  match a, b with
  | none, _ => exact inferInstanceAs (Decidable True)
  | some _, none => exact inferInstanceAs (Decidable False)
  | some x, some y => exact inferInstanceAs (Decidable (x ≤ y))

/-- `SELECT title FROM posts ORDER BY sentiment_score DESC LIMIT 1`
followed by `fetchone()[0]`: on an empty table `fetchone()` returns `None`
and subscripting it raises `TypeError`. -/
def mostPositiveTitle (rows : Store) : Except String String :=
  match (rows.insertionSort
      (fun r s => nullScoreLe s.sentiment_score r.sentiment_score)).head? with
  | none => .error "TypeError: NoneType object is not subscriptable"
  | some r => .ok r.title

/-- `SELECT title FROM posts ORDER BY sentiment_score ASC LIMIT 1`
followed by `fetchone()[0]`, raising likewise on an empty table. -/
def mostNegativeTitle (rows : Store) : Except String String :=
  match (rows.insertionSort
      (fun r s => nullScoreLe r.sentiment_score s.sentiment_score)).head? with
  | none => .error "TypeError: NoneType object is not subscriptable"
  | some r => .ok r.title

/-- `SELECT sentiment_label, COUNT(*) FROM posts GROUP BY sentiment_label`
read into a dict: one entry per distinct label value with its row count. -/
def sentimentDistribution (rows : Store) : List (Option String × Nat) :=
  (rows.foldl
      (fun acc r =>
        if r.sentiment_label ∈ acc then acc else acc ++ [r.sentiment_label]) []).map
    (fun l => (l, rows.countP (fun r => decide (r.sentiment_label = l))))

/-- `ORDER BY score DESC`: the sorter receives only the score key, so rows
with equal scores keep their scan (rowid) order. -/
def scoreDesc (r s : RedditPost) : Prop := s.score ≤ r.score

instance : DecidableRel scoreDesc := fun r s =>
  inferInstanceAs (Decidable (s.score ≤ r.score))

instance : IsTotal RedditPost scoreDesc :=
  ⟨fun r s => (Int.le_total s.score r.score).imp (fun h => h) (fun h => h)⟩

instance : IsTrans RedditPost scoreDesc :=
  ⟨fun _ _ _ h h' => le_trans h' h⟩

/-- Projection of a row to the tuple the top-posts query selects. -/
def topTuple (r : RedditPost) : String × String × Int × Option String :=
  (r.title, r.subreddit, r.score, r.sentiment_label)

/-- `SELECT title, subreddit, score, sentiment_label FROM posts ORDER BY
score DESC LIMIT 10`, as returned by `fetchall()`. -/
def topPosts (rows : Store) : List (String × String × Int × Option String) :=
  ((rows.insertionSort scoreDesc).take 10).map topTuple

/-- The analytics dictionary assembled by `get_analytics`. -/
structure Analytics where
  overall : Overall
  sentiment_distribution : List (Option String × Nat)
  top_posts : List (String × String × Int × Option String)
  most_positive_title : String
  most_negative_title : String
  deriving DecidableEq

/-- `DatabaseManager.get_analytics`: runs the overall query, the
most-positive and most-negative lookups (which subscript `fetchone()` and
therefore raise on an empty table, aborting the whole call), the
distribution query and the top-posts query, and assembles the result. -/
def get_analytics (rows : Store) : Except String Analytics :=
  match mostPositiveTitle rows with
  | .error e => .error e
  | .ok mp =>
    match mostNegativeTitle rows with
    | .error e => .error e
    | .ok mn =>
      .ok { overall := queryOverall rows,
            sentiment_distribution := sentimentDistribution rows,
            top_posts := topPosts rows,
            most_positive_title := mp,
            most_negative_title := mn }

/-- A small concrete lexicon used for concrete evaluations. -/
def demoLex : String → Option Rat := fun w =>
  if w = "love" then some (1/2)
  else if w = "terrible" then some (-1)
  else none

/-- A fully populated raw item whose title scores 1/2 under `demoLex`. -/
def rawFull : RawItem :=
  { data := some { id := some "x1", title := some "I love this",
                   author := some "alice", score := some 3,
                   num_comments := some 1, upvote_ratio := some (9/10) } }

/-- The record `normalize_post demoLex 0 rawFull "good"` produces. -/
def goodPost : RedditPost :=
  { post_id := "x1", subreddit := "good", title := "I love this",
    author := "alice", score := 3, num_comments := 1, upvote_ratio := 9/10,
    sentiment_score := some (1/2), sentiment_label := some "Positive",
    fetched_at := 0 }

/-- A network oracle on which fetching r/bad raises and r/good succeeds. -/
def demoNet : String → Option (List RawItem) := fun s =>
  if s = "good" then some [rawFull] else none

/-- The record `rawFull` normalizes to is exactly `goodPost`. -/
theorem normalize_rawFull : normalize_post demoLex 0 rawFull "good" = some goodPost := by
  decide

/-- C1: the claim says aggregation over the empty store succeeds with
total 0, absent averages, an empty distribution, absent extreme titles and
an empty top list.  The code computes exactly those values for the four
sub-queries, but the most-positive lookup subscripts `fetchone()`, which
is `None` on an empty table, so `get_analytics` raises `TypeError` instead
of returning. -/
theorem c1_empty_analytics_raises :
    get_analytics [] = .error "TypeError: NoneType object is not subscriptable" ∧
    queryOverall [] = { total_posts := 0, avg_score := none, avg_comments := none } ∧
    sentimentDistribution [] = [] ∧ topPosts [] = [] :=
  ⟨rfl, rfl, rfl, rfl⟩

/-- C2: the claim says a failed fetch is skipped and the remaining sources
are still processed.  In the code `fetch_subreddit` catches the error and
returns `None`, and `main` iterates that `None`, raising `TypeError` and
aborting the run: with sources `["bad", "good"]` where only r/bad fails,
the run errors out and r/good is never processed, while the same run over
`["good"]` alone succeeds. -/
theorem c2_fetch_failure_aborts_run :
    extractAll demoNet demoLex 0 ["bad", "good"] [] =
      .error "TypeError: NoneType object is not iterable (r/bad)" ∧
    extractAll demoNet demoLex 0 ["good"] [] = .ok [goodPost] :=
  ⟨rfl, rfl⟩

/-- C4: the sentiment label attached to a title is the fixed three-way
threshold classification of its polarity score — `> 0.1` Positive, then
`< -0.1` Negative, otherwise Neutral — and a title with no recognized
token (the empty title in particular) scores 0 and is labelled Neutral. -/
theorem c4_thresholds_and_empty (lex : String → Option Rat) (title : String) :
    (1/10 < textblobPolarity lex title →
       classifySentiment (textblobPolarity lex title) = "Positive") ∧
    (textblobPolarity lex title < -(1/10) →
       classifySentiment (textblobPolarity lex title) = "Negative") ∧
    (-(1/10) ≤ textblobPolarity lex title → textblobPolarity lex title ≤ 1/10 →
       classifySentiment (textblobPolarity lex title) = "Neutral") ∧
    ((wordsOf title).filterMap lex = [] →
       textblobPolarity lex title = 0 ∧
       classifySentiment (textblobPolarity lex title) = "Neutral") := by
  set q := textblobPolarity lex title with hq
  have hlt : -(1/10 : Rat) < 1/10 := by norm_num
  refine ⟨?_, ?_, ?_, ?_⟩
  · intro h
    simp only [classifySentiment, if_pos h]
  · intro h
    have h2 : ¬ (1/10 : Rat) < q := by
      intro h3
      exact absurd (lt_trans h3 (lt_trans h hlt)) (lt_irrefl _)
    simp only [classifySentiment, if_neg h2, if_pos h]
  · intro h1 h2
    have h3 : ¬ (1/10 : Rat) < q := not_lt.mpr h2
    have h4 : ¬ q < -(1/10 : Rat) := not_lt.mpr h1
    simp only [classifySentiment, if_neg h3, if_neg h4]
  · intro h
    have h0 : q = 0 := by
      rw [hq]
      unfold textblobPolarity
      simp only [h]
    refine ⟨h0, ?_⟩
    rw [h0]
    norm_num [classifySentiment]

/-- Witness for C4 at a Positive title and at the empty title. -/
theorem c4_witness :
    (1/10 < textblobPolarity demoLex "I love this" ∧
       classifySentiment (textblobPolarity demoLex "I love this") = "Positive") ∧
    ((wordsOf "").filterMap demoLex = [] ∧
       textblobPolarity demoLex "" = 0 ∧
       classifySentiment (textblobPolarity demoLex "") = "Neutral") :=
  ⟨⟨by decide, (c4_thresholds_and_empty demoLex "I love this").1 (by decide)⟩,
   ⟨by decide, (c4_thresholds_and_empty demoLex "").2.2.2 (by decide)⟩⟩

/-- A successful `RedditPost(...)` call returns exactly the record built
from the supplied arguments, sentiment fields included. -/
theorem validatedPost_sentiment (pid sub title author : String)
    (sc nc : Int) (ur sent : Rat) (label : String) (now : Nat)
    (p : RedditPost)
    (h : validatedPost pid sub title author sc nc ur sent label now = some p) :
    p.sentiment_score = some sent ∧ p.sentiment_label = some label := by
  simp only [validatedPost] at h
  split at h
  · cases h
    exact ⟨rfl, rfl⟩
  · cases h

/-- The classifier can only produce the three labels. -/
theorem classifySentiment_mem (s : Rat) :
    classifySentiment s = "Positive" ∨ classifySentiment s = "Negative" ∨
      classifySentiment s = "Neutral" := by
  unfold classifySentiment
  split
  · exact Or.inl rfl
  · split
    · exact Or.inr (Or.inl rfl)
    · exact Or.inr (Or.inr rfl)

/-- C3 counterexample input: a raw item carrying only `post_id` and
`title`. -/
def rawOnlyRequired : RawItem :=
  { data := some { id := some "x1", title := some "hello world" } }

/-- C3 counterexample: the claim says this item normalizes to a valid Post
Record with the defaults applied; in the code `normalize_post` looks the
optional fields up explicitly, the lookup of the absent `author` raises
`KeyError`, the handler catches it, and no record at all is produced. -/
theorem c3_counterexample :
    normalize_post demoLex 0 rawOnlyRequired "python" = none := by decide

/-- C3 amended: a raw item that lacks any of `author`, `score`,
`num_comments`, `upvote_ratio` is skipped by `normalize_post` — no
defaulted record is produced.  The enumerated defaults (author
"[deleted]", score 0, comment count 0, upvote ratio 1/2) exist only on the
record constructor, for fields not passed at construction — a path
`normalize_post` never takes, since it passes every field explicitly. -/
theorem c3_missing_optional_fields_skip (lex : String → Option Rat)
    (now : Nat) (raw : RawItem) (sub : String) (d : RawData)
    (hd : raw.data = some d)
    (h : d.author = none ∨ d.score = none ∨ d.num_comments = none ∨
         d.upvote_ratio = none) :
    normalize_post lex now raw sub = none ∧
    ({ post_id := "p", subreddit := "s", title := "t" } : RedditPost).author = "[deleted]" ∧
    ({ post_id := "p", subreddit := "s", title := "t" } : RedditPost).score = 0 ∧
    ({ post_id := "p", subreddit := "s", title := "t" } : RedditPost).num_comments = 0 ∧
    ({ post_id := "p", subreddit := "s", title := "t" } : RedditPost).upvote_ratio = 1/2 := by
  refine ⟨?_, rfl, rfl, rfl, rfl⟩
  obtain ⟨i, t, a, sc, nc, ur⟩ := d
  cases t <;> cases i <;> cases a <;> cases sc <;> cases nc <;> cases ur <;>
    simp_all [normalize_post]

/-- C3 witness input: every field present except `author`. -/
def rawNoAuthor : RawItem :=
  { data := some { id := some "x3", title := some "plain words",
                   score := some 3, num_comments := some 1,
                   upvote_ratio := some (9/10) } }

/-- Witness for C3's amended theorem at `rawNoAuthor`. -/
theorem c3_witness :
    normalize_post demoLex 0 rawNoAuthor "python" = none ∧
    ({ post_id := "p", subreddit := "s", title := "t" } : RedditPost).author = "[deleted]" ∧
    ({ post_id := "p", subreddit := "s", title := "t" } : RedditPost).score = 0 ∧
    ({ post_id := "p", subreddit := "s", title := "t" } : RedditPost).num_comments = 0 ∧
    ({ post_id := "p", subreddit := "s", title := "t" } : RedditPost).upvote_ratio = 1/2 :=
  c3_missing_optional_fields_skip demoLex 0 rawNoAuthor "python" _ rfl
    (Or.inl rfl)

/-- C8: a raw item whose `post_id` or `title` is absent (including the
case where the whole `data` mapping is absent) yields no Post Record:
the lookup raises `KeyError`, the handler catches it and returns `None`.
In this embedding `normalize_post` is a total function into `Option`, so
no exception ever reaches the caller accumulating the batch. -/
theorem c8_missing_required_yields_none (lex : String → Option Rat)
    (now : Nat) (raw : RawItem) (sub : String)
    (h : raw.data.bind RawData.id = none ∨ raw.data.bind RawData.title = none) :
    normalize_post lex now raw sub = none := by
  obtain ⟨data⟩ := raw
  cases data with
  | none => rfl
  | some d =>
    obtain ⟨i, t, a, sc, nc, ur⟩ := d
    cases t <;> cases i <;> cases a <;> cases sc <;> cases nc <;> cases ur <;>
      simp_all [normalize_post]

/-- C8 witness input: an item with an id but no title. -/
def rawNoTitle : RawItem :=
  { data := some { id := some "x2" } }

/-- Witness for C8 at `rawNoTitle`. -/
theorem c8_witness : normalize_post demoLex 0 rawNoTitle "python" = none :=
  c8_missing_required_yields_none demoLex 0 rawNoTitle "python" (Or.inr rfl)

/-- C10: every record `normalize_post` returns has both sentiment fields
populated — `sentiment_score` is the polarity of the title and
`sentiment_label` is exactly its threshold classification, one of
Positive, Negative, Neutral — even though the model declares them
optional. -/
theorem c10_sentiment_fields_populated (lex : String → Option Rat)
    (now : Nat) (raw : RawItem) (sub : String) (p : RedditPost)
    (h : normalize_post lex now raw sub = some p) :
    ∃ s, p.sentiment_score = some s ∧
      p.sentiment_label = some (classifySentiment s) ∧
      (p.sentiment_label = some "Positive" ∨
        p.sentiment_label = some "Negative" ∨
        p.sentiment_label = some "Neutral") := by
  obtain ⟨data⟩ := raw
  cases data with
  | none => cases h
  | some d =>
    obtain ⟨i, t, a, sc, nc, ur⟩ := d
    cases t with
    | none => cases h
    | some title =>
      cases i with
      | none => cases h
      | some pid =>
        cases a with
        | none => cases h
        | some author =>
          cases sc with
          | none => cases h
          | some score =>
            cases nc with
            | none => cases h
            | some ncomments =>
              cases ur with
              | none => cases h
              | some ratio =>
                have h' :
                    validatedPost pid sub title author score ncomments ratio
                      (textblobPolarity lex title)
                      (classifySentiment (textblobPolarity lex title)) now =
                      some p := h
                obtain ⟨hs, hl⟩ :=
                  validatedPost_sentiment _ _ _ _ _ _ _ _ _ _ _ h'
                refine ⟨textblobPolarity lex title, hs, hl, ?_⟩
                rcases classifySentiment_mem (textblobPolarity lex title) with
                  hc | hc | hc
                · exact Or.inl (by rw [hl, hc])
                · exact Or.inr (Or.inl (by rw [hl, hc]))
                · exact Or.inr (Or.inr (by rw [hl, hc]))

/-- Witness for C10 at the fully populated item `rawFull`. -/
theorem c10_witness :
    ∃ s, goodPost.sentiment_score = some s ∧
      goodPost.sentiment_label = some (classifySentiment s) ∧
      (goodPost.sentiment_label = some "Positive" ∨
        goodPost.sentiment_label = some "Negative" ∨
        goodPost.sentiment_label = some "Neutral") :=
  c10_sentiment_fields_populated demoLex 0 rawFull "good" goodPost (by decide)

/-- Number of rows of the table carrying a given `post_id`. -/
def pidCount (q : String) (rows : Store) : Nat :=
  rows.countP (fun r => decide (r.post_id = q))

/-- One upsert leaves exactly one row for the upserted key and keeps the
count of every other key. -/
theorem pidCount_upsertOne (q : String) (rows : Store) (p : RedditPost) :
    pidCount q (upsertOne rows p) =
      if q = p.post_id then 1 else pidCount q rows := by
  unfold pidCount upsertOne
  rw [List.countP_append]
  by_cases hq : q = p.post_id
  · subst hq
    rw [if_pos rfl]
    have h0 : (rows.filter fun r => r.post_id ≠ p.post_id).countP
        (fun r => decide (r.post_id = p.post_id)) = 0 := by
      simp only [List.countP_eq_zero]
      intro a ha
      have h2 := (List.mem_filter.mp ha).2
      simp only [ne_eq, decide_not, Bool.not_eq_eq_eq_not, Bool.not_true,
        decide_eq_false_iff_not] at h2
      simp only [decide_eq_true_eq]
      exact h2
    rw [h0]
    simp
  · rw [if_neg hq]
    have h1 : List.countP (fun r => decide (r.post_id = q)) [p] = 0 := by
      simp only [List.countP_cons, List.countP_nil, decide_eq_true_eq]
      rw [if_neg (fun h => hq h.symm)]
    rw [h1, Nat.add_zero, List.countP_filter]
    apply List.countP_congr
    intro x _
    by_cases h : x.post_id = q
    · have h2 : x.post_id ≠ p.post_id := fun hc => hq (h.symm.trans hc)
      simp [h, h2, hq]
    · simp [h]

/-- After a batch of upserts, every key occurring in the batch has exactly
one row, and a key not in the batch keeps its prior count. -/
theorem pidCount_insert_posts (q : String) (posts : List RedditPost)
    (rows : Store) :
    pidCount q (insert_posts posts rows) =
      if q ∈ posts.map RedditPost.post_id then 1 else pidCount q rows := by
  induction posts generalizing rows with
  | nil => simp [insert_posts]
  | cons p ps ih =>
    have hstep : insert_posts (p :: ps) rows = insert_posts ps (upsertOne rows p) := rfl
    rw [hstep, ih]
    by_cases hmem : q ∈ ps.map RedditPost.post_id
    · simp [hmem]
    · rw [if_neg hmem, pidCount_upsertOne]
      by_cases hq : q = p.post_id
      · simp [hq]
      · simp [hq, hmem]

/-- Splitting a table into the rows avoiding a key and the rows carrying
it preserves the length. -/
theorem length_filter_ne_add_pidCount (rows : Store) (q : String) :
    (rows.filter fun r => r.post_id ≠ q).length + pidCount q rows =
      rows.length := by
  unfold pidCount
  induction rows with
  | nil => rfl
  | cons a l ih =>
    rw [List.filter_cons, List.countP_cons, List.length_cons]
    by_cases h : a.post_id = q
    · have hb1 : ¬ ((fun r => decide (r.post_id ≠ q)) a = true) := by simp [h]
      have hb2 : (fun r => decide (r.post_id = q)) a = true := by simp [h]
      rw [if_neg hb1, if_pos hb2]
      omega
    · have hb1 : (fun r => decide (r.post_id ≠ q)) a = true := by simp [h]
      have hb2 : ¬ ((fun r => decide (r.post_id = q)) a = true) := by simp [h]
      rw [if_pos hb1, if_neg hb2, List.length_cons]
      omega

/-- Upserting a key that currently has exactly one row keeps the table
length. -/
theorem length_upsertOne_of_one (rows : Store) (p : RedditPost)
    (h : pidCount p.post_id rows = 1) :
    (upsertOne rows p).length = rows.length := by
  unfold upsertOne
  rw [List.length_append, List.length_singleton]
  have hsplit := length_filter_ne_add_pidCount rows p.post_id
  omega

/-- Re-running a batch whose every key already has exactly one row keeps
the table length. -/
theorem length_insert_posts_of_ones (posts : List RedditPost) (rows : Store)
    (h : ∀ p ∈ posts, pidCount p.post_id rows = 1) :
    (insert_posts posts rows).length = rows.length := by
  induction posts generalizing rows with
  | nil => rfl
  | cons p ps ih =>
    have hstep : insert_posts (p :: ps) rows = insert_posts ps (upsertOne rows p) := rfl
    rw [hstep, ih, length_upsertOne_of_one rows p (h p (List.mem_cons_self p ps))]
    intro p' hp'
    rw [pidCount_upsertOne]
    by_cases hq : p'.post_id = p.post_id
    · rw [if_pos hq]
    · rw [if_neg hq]
      exact h p' (List.mem_cons_of_mem p hp')

/-- C6: upserting the same batch twice leaves `total_posts` unchanged
after the second call, for every batch and every starting table: the
first pass leaves each batch key with exactly one row, so every upsert of
the second pass replaces instead of inserting. -/
theorem c6_upsert_idempotent_rowcount (posts : List RedditPost) (rows : Store) :
    (queryOverall (insert_posts posts (insert_posts posts rows))).total_posts =
      (queryOverall (insert_posts posts rows)).total_posts := by
  show (insert_posts posts (insert_posts posts rows)).length =
    (insert_posts posts rows).length
  apply length_insert_posts_of_ones
  intro p hp
  rw [pidCount_insert_posts]
  rw [if_pos (List.mem_map_of_mem RedditPost.post_id hp)]

/-- C5: upserting a record whose `post_id` is already present replaces the
entire row: afterwards exactly one row carries that key, that row is the
new record in all columns (so no mix of old and new values can remain),
and the table does not grow. -/
theorem c5_upsert_replaces_row (rows : Store) (p : RedditPost)
    (h : ∃ r ∈ rows, r.post_id = p.post_id) :
    pidCount p.post_id (insert_posts [p] rows) = 1 ∧
    (∀ r ∈ insert_posts [p] rows, r.post_id = p.post_id → r = p) ∧
    p ∈ insert_posts [p] rows ∧
    (insert_posts [p] rows).length ≤ rows.length := by
  have hins : insert_posts [p] rows = upsertOne rows p := rfl
  refine ⟨?_, ?_, ?_, ?_⟩
  · rw [hins, pidCount_upsertOne, if_pos rfl]
  · intro r hr hpid
    rw [hins] at hr
    unfold upsertOne at hr
    rcases List.mem_append.mp hr with hr | hr
    · have h2 := (List.mem_filter.mp hr).2
      simp only [ne_eq, decide_not, Bool.not_eq_eq_eq_not, Bool.not_true,
        decide_eq_false_iff_not] at h2
      exact absurd hpid h2
    · rcases List.mem_singleton.mp hr with rfl
      rfl
  · rw [hins]
    exact List.mem_append_right _ (List.mem_singleton.mpr rfl)
  · rw [hins]
    unfold upsertOne
    rw [List.length_append, List.length_singleton]
    obtain ⟨r, hr, hrp⟩ := h
    have hlt : (rows.filter fun x => x.post_id ≠ p.post_id).length < rows.length := by
      apply List.length_filter_lt_length_iff_exists.mpr
      exact ⟨r, hr, by simp [hrp]⟩
    omega

/-- Witness store for C5: one row keyed "abc" with score 10. -/
def oldPost : RedditPost :=
  { post_id := "abc", subreddit := "python", title := "old title", score := 10 }

/-- Witness record for C5: same key "abc", score 50. -/
def newPost : RedditPost :=
  { post_id := "abc", subreddit := "python", title := "new title", score := 50 }

/-- Witness for C5 at the scenario of the spec: re-inserting key "abc"
with score 50 over a table holding score 10. -/
theorem c5_witness :
    pidCount newPost.post_id (insert_posts [newPost] [oldPost]) = 1 ∧
    (∀ r ∈ insert_posts [newPost] [oldPost],
        r.post_id = newPost.post_id → r = newPost) ∧
    newPost ∈ insert_posts [newPost] [oldPost] ∧
    (insert_posts [newPost] [oldPost]).length ≤ [oldPost].length :=
  c5_upsert_replaces_row [oldPost] newPost
    ⟨oldPost, List.mem_singleton.mpr rfl, rfl⟩

/-- C9: per-record failure handling of `insert_posts`: for every failure
oracle, the run over a batch equals the plain upsert run over just the
non-failing records — a failing record is skipped, records after it are
still written, records before it stay written — and the returned count is
the number of records actually inserted or replaced. -/
theorem c9_per_record_failure (fail : RedditPost → Bool)
    (posts : List RedditPost) (rows : Store) :
    insert_postsTry fail posts rows 0 =
      (insert_posts (posts.filter (fun p => !fail p)) rows,
       (posts.filter (fun p => !fail p)).length) := by
  suffices hgen : ∀ ps rs n, insert_postsTry fail ps rs n =
      (insert_posts (ps.filter (fun p => !fail p)) rs,
       n + (ps.filter (fun p => !fail p)).length) by
    rw [hgen]
    rw [Nat.zero_add]
  intro ps
  induction ps with
  | nil => intro rs n; rfl
  | cons p ps ih =>
    intro rs n
    by_cases hf : fail p
    · have hskip : insert_postsTry fail (p :: ps) rs n = insert_postsTry fail ps rs n := by
        simp only [insert_postsTry]
        rw [if_pos hf]
      rw [hskip, ih, List.filter_cons]
      simp [hf]
    · have hwrite : insert_postsTry fail (p :: ps) rs n =
          insert_postsTry fail ps (upsertOne rs p) (n + 1) := by
        simp only [insert_postsTry]
        rw [if_neg hf]
      rw [hwrite, ih, List.filter_cons]
      have hstep : insert_posts (p :: ps.filter (fun p => !fail p)) rs =
          insert_posts (ps.filter (fun p => !fail p)) (upsertOne rs p) := rfl
      simp only [hf, Bool.not_false, if_pos]
      rw [hstep, List.length_cons]
      congr 1
      omega

/-- Lexicographic order on character lists, for comparing `post_id`
strings. -/
def charListLe : List Char → List Char → Bool
  | [], _ => true
  | _ :: _, [] => false
  | a :: as, b :: bs =>
    if a < b then true else if b < a then false else charListLe as bs

/-- The ordering the spec prescribes for `query_top_by_score`: strictly
higher score first, ties broken by `post_id` ascending. -/
def specTopLe (r s : RedditPost) : Prop :=
  s.score < r.score ∨
    (r.score = s.score ∧ charListLe r.post_id.data s.post_id.data = true)

instance : DecidableRel specTopLe := fun _ _ =>
  inferInstanceAs (Decidable (_ ∨ _))

/-- The spec's words for `query_top_by_score(n)`: tuples ordered
descending by score, ties broken by `post_id` ascending, truncated to
`n`.  Stated for comparison with `topPosts`, the query the code runs. -/
def specTopByScore (n : Nat) (rows : Store) :
    List (String × String × Int × Option String) :=
  ((rows.insertionSort specTopLe).take n).map topTuple

/-- Rows for the spec's own tie scenario: key "b" score 20, key "a" score
20, key "c" score 5, inserted in that order. -/
def rowB : RedditPost :=
  { post_id := "b", subreddit := "s", title := "tb", score := 20 }

/-- Second row of the tie scenario. -/
def rowA : RedditPost :=
  { post_id := "a", subreddit := "s", title := "ta", score := 20 }

/-- Third row of the tie scenario. -/
def rowC : RedditPost :=
  { post_id := "c", subreddit := "s", title := "tc", score := 5 }

/-- The tie-scenario table in insertion order. -/
def tieStore : Store := [rowB, rowA, rowC]

/-- C7 counterexample: on the spec's own scenario (scores 20, 20, 5 with
the tied keys inserted "b" before "a") and n = 2, the query the code runs
returns all three rows — the SQL limit is the constant 10, not n — and
keeps the tied rows in insertion order "b", "a", not in the claimed
post_id order "a", "b". -/
theorem c7_counterexample :
    topPosts tieStore ≠ specTopByScore 2 tieStore ∧
    topPosts tieStore =
      [("tb", "s", 20, none), ("ta", "s", 20, none), ("tc", "s", 5, none)] ∧
    specTopByScore 2 tieStore =
      [("ta", "s", 20, none), ("tb", "s", 20, none)] := by
  refine ⟨?_, ?_, ?_⟩ <;> decide

/-- C7 amended: the top-by-score query returns stored rows as (title,
source, score, sentiment label) tuples in descending score order,
truncated to at most 10 entries: the limit is the SQL constant 10, not a
caller-supplied n, and rows with equal scores keep the table's scan order
instead of following post_id. -/
theorem c7_top_query_sorted_bounded (rows : Store) :
    List.Sorted (fun t u : String × String × Int × Option String =>
      u.2.2.1 ≤ t.2.2.1) (topPosts rows) ∧
    (topPosts rows).length = min 10 rows.length ∧
    (∀ t ∈ topPosts rows, ∃ r ∈ rows, topTuple r = t) := by
  refine ⟨?_, ?_, ?_⟩
  · have hs : List.Sorted scoreDesc (rows.insertionSort scoreDesc) :=
      List.sorted_insertionSort scoreDesc rows
    have hst : List.Sorted scoreDesc ((rows.insertionSort scoreDesc).take 10) :=
      List.Pairwise.sublist (List.take_sublist _ _) hs
    exact List.Pairwise.map topTuple (fun a b h => h) hst
  · unfold topPosts
    rw [List.length_map, List.length_take, List.length_insertionSort]
  · intro t ht
    obtain ⟨r, hr, hrt⟩ := List.mem_map.mp ht
    refine ⟨r, ?_, hrt⟩
    exact (List.mem_insertionSort scoreDesc).mp (List.take_subset 10 _ hr)

/-- Witness for C7's amended theorem at the tie-scenario table. -/
theorem c7_witness :
    List.Sorted (fun t u : String × String × Int × Option String =>
      u.2.2.1 ≤ t.2.2.1) (topPosts tieStore) ∧
    (topPosts tieStore).length = min 10 tieStore.length ∧
    (∃ r ∈ tieStore, topTuple r = ("tc", "s", 5, none)) :=
  ⟨(c7_top_query_sorted_bounded tieStore).1,
   (c7_top_query_sorted_bounded tieStore).2.1,
   (c7_top_query_sorted_bounded tieStore).2.2 ("tc", "s", 5, none) (by decide)⟩

end RedditPipeline

